import Mathlib

/-!
Verification of the Loopuman python client library (`loopuman/client.py` and
`loopuman/tools.py`) against its specification.

The embedding models decoded JSON values as an inductive `Json` type (the
values produced by `resp.json()`), Python exceptions as explicit error
results (`Except` / dedicated outcome types), and the polling loop of
`Loopuman.wait` as a fuel-indexed recursive function over a scripted
sequence of fetched tasks.  Integers are modelled as `Int` (Python integers
are unbounded, so no wrap-around is involved), and the USD conversion is
modelled over `ℚ` (the concrete values appearing in the spec, such as
250 / 100 = 2.5, are exactly representable).
-/

namespace Loopuman

/-- A decoded JSON value, as produced by Python's `resp.json()`.
JSON numbers are modelled as integers (all numeric fields used by the
client — budgets, worker counts, status codes — are integral).
Python's `None` is `Json.null`.  Objects are ordered association lists
with distinct string keys, mirroring `dict` insertion order. -/
inductive Json where
  | null : Json
  | bool (b : Bool) : Json
  | num (n : Int) : Json
  | str (s : String) : Json
  | arr (elems : List Json) : Json
  | obj (fields : List (String × Json)) : Json
deriving Repr, Inhabited

/-- Python truthiness (`if x:`) for JSON-decodable values:
`None`, `False`, `0`, `""`, `[]` and `{}` are falsy, everything else truthy. -/
def Json.truthy : Json → Bool
  | .null => false
  | .bool b => b
  | .num n => n != 0
  | .str s => s != ""
  | .arr elems => !elems.isEmpty
  | .obj fields => !fields.isEmpty

/-- Python `value == "literal"` for a JSON-decodable value and a string
literal: true exactly when the value is that string (no JSON-decodable
non-string value compares equal to a string in Python). -/
def Json.eqStr : Json → String → Bool
  | .str t, s => t == s
  | _, _ => false

/-- Python `d.get(key, default)` on a JSON object's field list:
the value stored under `key`, or `default` when the key is absent. -/
def jget (fields : List (String × Json)) (key : String) (default : Json) : Json :=
  match fields.lookup key with
  | some v => v
  | none => default

/-- Python `repr()` restricted to JSON-decodable values, used by `str()` on
containers.  String escaping inside `repr` of a string is elided (the quote
characters are produced, interior characters are kept verbatim); this is
only consumed by the case-insensitive "balance" substring test, which is
unaffected by escaping. -/
def Json.pyrepr : Json → String
  | .null => "None"
  | .bool true => "True"
  | .bool false => "False"
  | .num n => toString n
  | .str s => "\x27" ++ s ++ "\x27"
  | .arr elems =>
      "[" ++ String.intercalate ", " (elems.attach.map (fun x => Json.pyrepr x.1)) ++ "]"
  | .obj fields =>
      "\x7b" ++
        String.intercalate ", "
          (fields.attach.map (fun kv => "\x27" ++ kv.1.1 ++ "\x27: " ++ Json.pyrepr kv.1.2)) ++
      "\x7d"
decreasing_by
  · have h := List.sizeOf_lt_of_mem x.2
    simp_wf
    omega
  · have h := List.sizeOf_lt_of_mem kv.2
    rcases kv with ⟨⟨k, v⟩, hm⟩
    simp_wf
    simp [Prod.mk.sizeOf_spec] at h
    omega

/-- Python `str()` on a JSON-decodable value: the string itself for strings,
`repr` otherwise (as CPython does for `None`, booleans, numbers, lists and
dicts). -/
def Json.pystr : Json → String
  | .str s => s
  | j => j.pyrepr

/-- Python `needle in hay` on strings: `needle` occurs as a contiguous
substring of `hay`. -/
def pyContains (hay needle : String) : Bool :=
  decide (needle.data <:+: hay.data)

/-- Python `str.lower()`, modelled for ASCII characters (the substring
patterns it is compared against, "insufficient_balance" and "balance", are
ASCII). -/
def pyLower (s : String) : String :=
  ⟨s.data.map Char.toLower⟩

/-- The `Task` dataclass of `client.py`.  Every field except `raw` is filled
by `Task.from_dict` from a `dict.get` call, so fields hold arbitrary JSON
values (Python is dynamically typed); `None` is `Json.null`. -/
structure Task where
  id : Json
  status : Json
  title : Json
  description : Json
  category : Json
  budget : Json
  result : Json
  submissions : Json
  worker_id : Json
  created_at : Json
  completed_at : Json
  raw : Json
deriving Repr, Inhabited

/-- The result-extraction step of `Task.from_dict` (client.py lines 62–66):

    submissions = data.get("submissions", [])
    result = None
    if submissions:
        result = submissions[0].get("content", submissions[0].get("text"))

A truthy non-list value, or a list whose first element is not an object,
makes the Python code raise (`TypeError` on indexing, or `AttributeError`
on `.get`); this is modelled as `.error`. -/
def extract_result (submissions : Json) : Except String Json :=
  match submissions with
  | .arr [] => .ok .null
  | .arr (first :: _) =>
      match first with
      | .obj fields => .ok (jget fields "content" (jget fields "text" .null))
      | _ => .error "AttributeError: first submission has no attribute get"
  | j => if j.truthy then .error "TypeError: submissions value is not subscriptable" else .ok .null

/-- `Task.from_dict` (client.py lines 58–80).  A non-object argument makes
`data.get` raise `AttributeError`; a malformed submissions value raises as
described at `extract_result`.  Both are modelled as `.error`. -/
def Task.from_dict (data : Json) : Except String Task :=
  match data with
  | .obj fields =>
      let submissions := jget fields "submissions" (.arr [])
      match extract_result submissions with
      | .error e => .error e
      | .ok result =>
          .ok { id := jget fields "task_id" (jget fields "id" (.str ""))
                status := jget fields "status" (.str "")
                title := jget fields "title" .null
                description := jget fields "description" .null
                category := jget fields "category" .null
                budget := jget fields "budget_vae" (jget fields "budget" .null)
                result := result
                submissions := submissions
                worker_id := jget fields "worker_id" .null
                created_at := jget fields "created_at" .null
                completed_at := jget fields "completed_at" .null
                raw := data }
  | _ => .error "AttributeError: response value has no attribute get"

/-- `Task.is_done` (client.py lines 82–84): `self.status in ("completed", "approved")`. -/
def Task.is_done (t : Task) : Bool :=
  t.status.eqStr "completed" || t.status.eqStr "approved"

/-- `Task.is_pending` (client.py lines 86–88): `self.status in ("active", "claimed", "submitted")`. -/
def Task.is_pending (t : Task) : Bool :=
  t.status.eqStr "active" || t.status.eqStr "claimed" || t.status.eqStr "submitted"

/-- The terminal-failure membership test of `Loopuman.wait` (client.py line
281): `task.status in ("expired", "cancelled", "disputed")`. -/
def Task.failed_status (t : Task) : Bool :=
  t.status.eqStr "expired" || t.status.eqStr "cancelled" || t.status.eqStr "disputed"

/-- `Task.budget_usd` (client.py lines 90–93):
`self.budget / 100.0 if self.budget else None`.  A falsy budget (`None`,
`0`, `False`, … ) yields `None`; a truthy numeric (or boolean, since Python
booleans are integers) budget is divided by 100; a truthy non-numeric
budget makes `/` raise `TypeError`, modelled as `.error`.  The float
division is modelled over `ℚ`. -/
def Task.budget_usd (t : Task) : Except String (Option ℚ) :=
  if t.budget.truthy then
    match t.budget with
    | .num n => .ok (some ((n : ℚ) / 100))
    | .bool _ => .ok (some ((1 : ℚ) / 100))
    | _ => .error "TypeError: unsupported operand type for division"
  else
    .ok none

/-- The `LoopumanError` exception hierarchy of client.py (lines 96–111):
the base class and its two subclasses.  `except LoopumanError` catches all
three constructors.  `str(e)` is the `message` field. -/
inductive LoopumanExc where
  | loopumanError (message : String) (status_code : Option Int) (response : Json)
  | insufficientBalance (message : String) (status_code : Option Int) (response : Json)
  | taskExpired (message : String) (status_code : Option Int) (response : Json)
deriving Repr

/-- Python `str(e)` on a `LoopumanError`: the message it was constructed with. -/
def LoopumanExc.pystr : LoopumanExc → String
  | .loopumanError m _ _ => m
  | .insufficientBalance m _ _ => m
  | .taskExpired m _ _ => m

/-- Outcome of the body of `Loopuman._request` after the HTTP response has
been received and its body parsed (client.py lines 160–178): a normal
return of the parsed data, a raised `LoopumanError`, or an unmodelled
Python-level exception (`data.get` on a non-dict body). -/
inductive ReqOutcome where
  | ok (data : Json)
  | raised (e : LoopumanExc)
  | pyError (msg : String)
deriving Repr

/-- The post-parse logic of `Loopuman._request` (client.py lines 165–178),
as a function of the HTTP status code, the parsed body `data` (after the
JSON-decode fallback `{"raw": resp.text}` has already been applied) and
`resp.text`.  Lowercasing models ASCII `str.lower()`. -/
def request_outcome (status_code : Int) (data : Json) (raw_text : String) : ReqOutcome :=
  if 400 ≤ status_code then
    match data with
    | .obj fields =>
        let error_msg := jget fields "error" (jget fields "message" (.str raw_text))
        if pyContains (pyLower error_msg.pystr) "insufficient_balance"
            || pyContains (pyLower error_msg.pystr) "balance" then
          ReqOutcome.raised (.insufficientBalance
            ("Balance too low. Top up at loopuman.com or deposit crypto. Error: " ++ error_msg.pystr)
            (some status_code) data)
        else
          ReqOutcome.raised (.loopumanError
            ("API error " ++ toString status_code ++ ": " ++ error_msg.pystr)
            (some status_code) data)
    | _ => ReqOutcome.pyError "AttributeError: error body has no attribute get"
  else
    ReqOutcome.ok data

/-- The request payload built by `Loopuman.create_task` (client.py lines
209–219), restricted to its named parameters (the `**extra_fields`
passthrough is not modelled).  `if title: payload["title"] = title`
appends the title only when it is a truthy (non-`None`, non-empty)
string. -/
def create_task_payload (description : String) (title : Option String) (category : String)
    (budget_vae : Int) (estimated_seconds : Int) (priority : String) (max_workers : Int) : Json :=
  let base : List (String × Json) :=
    [("description", .str description),
     ("category", .str category),
     ("budget_vae", .num (max budget_vae 10)),
     ("estimated_seconds", .num estimated_seconds),
     ("priority", .str priority),
     ("max_workers", .num max_workers)]
  match title with
  | some t => if t != "" then .obj (base ++ [("title", .str t)]) else .obj base
  | none => .obj base

/-- The request payload built by `Loopuman.create_task_sync` (client.py
lines 240–249), restricted to its named parameters. -/
def create_task_sync_payload (description : String) (title : Option String) (category : String)
    (budget_vae : Int) (estimated_seconds : Int) (priority : String) : Json :=
  let base : List (String × Json) :=
    [("description", .str description),
     ("category", .str category),
     ("budget_vae", .num (max budget_vae 10)),
     ("estimated_seconds", .num estimated_seconds),
     ("priority", .str priority)]
  match title with
  | some t => if t != "" then .obj (base ++ [("title", .str t)]) else .obj base
  | none => .obj base

/-- Reads a field of a JSON object payload (used to state what a payload
transmits under a given key). -/
def payload_field (payload : Json) (key : String) : Option Json :=
  match payload with
  | .obj fields => fields.lookup key
  | _ => none

/-- The standalone `ask_human` function of tools.py (lines 11–31), as a
function of the outcome of the underlying `client.ask` call: it calls
`client.ask` directly and has no `except` clause, so the outcome — normal
return or raised `LoopumanError` — passes through unchanged. -/
def ask_human (ask_outcome : Except LoopumanExc String) : Except LoopumanExc String :=
  ask_outcome

/-- The `loopuman_human_task` callable built by `langchain_tool` (tools.py
lines 55–78), as a function of the outcome of the underlying `client.ask`
call: `except LoopumanError as e: return f"Human task failed: {e}"`. -/
def langchain_loopuman_human_task (ask_outcome : Except LoopumanExc String) :
    Except LoopumanExc String :=
  match ask_outcome with
  | .ok s => .ok s
  | .error e => .ok ("Human task failed: " ++ e.pystr)

/-- The `loopuman_human_task` callable built by `crewai_tool` (tools.py
lines 99–111), as a function of the outcome of the underlying `client.ask`
call: `except LoopumanError as e: return f"Human task failed: {e}"`. -/
def crewai_loopuman_human_task (ask_outcome : Except LoopumanExc String) :
    Except LoopumanExc String :=
  match ask_outcome with
  | .ok s => .ok s
  | .error e => .ok ("Human task failed: " ++ e.pystr)

/-- The `ask_human_worker` entry of the map built by `autogen_function_map`
(tools.py lines 129–136), as a function of the outcome of the underlying
`client.ask` call: `except LoopumanError as e: return f"Human task failed: {e}"`. -/
def ask_human_worker (ask_outcome : Except LoopumanExc String) :
    Except LoopumanExc String :=
  match ask_outcome with
  | .ok s => .ok s
  | .error e => .ok ("Human task failed: " ++ e.pystr)

/-- Outcome of a call to `Loopuman.wait`: a normal return of a `Task`, or a
raised exception. -/
inductive WaitOutcome where
  | returned (t : Task)
  | raised (e : LoopumanExc)
deriving Repr

/-- The loop body of `Loopuman.wait` (client.py lines 276–290), run over a
scripted sequence of fetches: `fetch i` is the `Task` produced by the
`(i+1)`-th `get_task` call.  `i` counts fetches performed so far, `elapsed`
is the loop's elapsed-time accumulator (incremented by `poll_interval` per
iteration, never measured), and `trace` records the value of `elapsed` at
each fetch.  `time.sleep` has no observable effect in the model.  `fuel`
bounds the recursion; `none` models non-termination of the Python loop and
is never returned when `0 < poll_interval` and the fuel is at least
`max_wait + 1`, since `elapsed` then grows by at least 1 per iteration. -/
def wait_aux (fetch : Nat → Task) (task_id : String) (poll_interval max_wait : Nat) :
    Nat → Nat → Nat → List Nat → Option (WaitOutcome × List Nat)
  | 0, _, _, _ => none
  | fuel + 1, i, elapsed, trace =>
    if elapsed < max_wait then
      let t := fetch i
      if t.is_done then some (.returned t, trace ++ [elapsed])
      else if t.failed_status then
        some (.raised (.taskExpired
          ("Task " ++ task_id ++ " ended with status: " ++ t.status.pystr)
          none t.raw), trace ++ [elapsed])
      else
        wait_aux fetch task_id poll_interval max_wait fuel (i + 1) (elapsed + poll_interval)
          (trace ++ [elapsed])
    else
      some (.returned (fetch i), trace ++ [elapsed])

/-- `Loopuman.wait` (client.py lines 259–290) over a scripted fetch
sequence.  The result pairs the outcome (return or raise) with the list of
`elapsed` values at which fetches were performed; its length is the number
of `get_task` calls. -/
def wait (fetch : Nat → Task) (task_id : String) (poll_interval max_wait : Nat) :
    Option (WaitOutcome × List Nat) :=
  wait_aux fetch task_id poll_interval max_wait (max_wait + 1) 0 0 []

/-- A scripted task snapshot with a given status and raw payload, as a test
harness for the polling loop (all other fields as produced from an empty
response). -/
def sampleTask (status : String) (raw : Json) : Task :=
  { id := .str "t1", status := .str status, title := .null, description := .null,
    category := .null, budget := .null, result := .null, submissions := .arr [],
    worker_id := .null, created_at := .null, completed_at := .null, raw := raw }

/-- Shapes of a `submissions` value on which the result-extraction step of
`Task.from_dict` cannot raise: an empty array, an array whose first element
is an object, or any falsy value (skipped by `if submissions:`). -/
def submissions_well_shaped : Json → Bool
  | .arr [] => true
  | .arr (.obj _ :: _) => true
  | .arr _ => false
  | j => !j.truthy

/-- A JSON value compares equal (in Python) to a string literal iff it is
that string. -/
theorem Json.eqStr_iff (j : Json) (s : String) : j.eqStr s = true ↔ j = .str s := by
  cases j <;> simp [Json.eqStr]

/-- Characterization of the terminal-failure membership test of `wait`. -/
theorem Task.failed_status_spec (t : Task) :
    t.failed_status = true ↔
      (t.status = .str "expired" ∨ t.status = .str "cancelled" ∨ t.status = .str "disputed") := by
  simp [Task.failed_status, Bool.or_eq_true, Json.eqStr_iff, or_assoc]

/-- A task whose status is one of the terminal-failure strings is not done. -/
theorem Task.is_done_false_of_failed (t : Task) (h : t.failed_status = true) :
    t.is_done = false := by
  rcases (Task.failed_status_spec t).1 h with h' | h' | h' <;>
    simp [Task.is_done, h', Json.eqStr]

/-- One pending iteration of the `wait` loop: a fetch that is neither done
nor terminal-failed leads to a sleep and another iteration with `elapsed`
incremented by `poll_interval`. -/
theorem wait_aux_step (fetch : Nat → Task) (task_id : String) (p mw fuel i elapsed : Nat)
    (trace : List Nat) (hlt : elapsed < mw) (hdone : (fetch i).is_done = false)
    (hfail : (fetch i).failed_status = false) :
    wait_aux fetch task_id p mw (fuel + 1) i elapsed trace
      = wait_aux fetch task_id p mw fuel (i + 1) (elapsed + p) (trace ++ [elapsed]) := by
  simp [wait_aux, hlt, hdone, hfail]

/-- The timeout exit of the `wait` loop: once `elapsed ≥ max_wait`, one
final fetch is performed and returned, with no status check. -/
theorem wait_aux_timeout (fetch : Nat → Task) (task_id : String) (p mw fuel i elapsed : Nat)
    (trace : List Nat) (hge : mw ≤ elapsed) :
    wait_aux fetch task_id p mw (fuel + 1) i elapsed trace
      = some (.returned (fetch i), trace ++ [elapsed]) := by
  simp [wait_aux, Nat.not_lt.mpr hge]

/-- The terminal-failure exit of the `wait` loop: an in-loop fetch whose
status is expired/cancelled/disputed raises a `TaskExpiredError` carrying
the fetched task's raw payload. -/
theorem wait_aux_raise (fetch : Nat → Task) (task_id : String) (p mw fuel i elapsed : Nat)
    (trace : List Nat) (hlt : elapsed < mw) (hfail : (fetch i).failed_status = true) :
    wait_aux fetch task_id p mw (fuel + 1) i elapsed trace
      = some (.raised (.taskExpired
          ("Task " ++ task_id ++ " ended with status: " ++ (fetch i).status.pystr)
          none (fetch i).raw), trace ++ [elapsed]) := by
  simp [wait_aux, hlt, Task.is_done_false_of_failed _ hfail, hfail]

/-- Running the `wait` loop through `m` consecutive pending in-loop
fetches: starting at fetch index `i` with `elapsed = i * poll_interval`,
the loop reaches fetch index `i + m`, consuming `m` units of fuel and
recording one fetch per iteration. -/
theorem wait_aux_run_pending (fetch : Nat → Task) (task_id : String) (p mw : Nat) (m : Nat) :
    ∀ (fuel i : Nat) (trace : List Nat),
      (∀ j, i ≤ j → j < i + m → (fetch j).is_done = false ∧ (fetch j).failed_status = false) →
      (∀ j, i ≤ j → j < i + m → j * p < mw) →
      wait_aux fetch task_id p mw (fuel + m) i (i * p) trace
        = wait_aux fetch task_id p mw fuel (i + m) ((i + m) * p)
            (trace ++ (List.range m).map (fun k => (i + k) * p)) := by
  induction m with
  | zero => intro fuel i trace _ _; simp
  | succ m ih =>
    intro fuel i trace hpend hin
    have h0 := hpend i le_rfl (by omega)
    have hi : i * p < mw := hin i le_rfl (by omega)
    have hstep := wait_aux_step fetch task_id p mw (fuel + m) i (i * p) trace hi h0.1 h0.2
    have hIH := ih fuel (i + 1) (trace ++ [i * p])
      (fun j hj1 hj2 => hpend j (by omega) (by omega))
      (fun j hj1 hj2 => hin j (by omega) (by omega))
    have harith : i * p + p = (i + 1) * p := by ring
    have hidx : i + 1 + m = i + (m + 1) := by omega
    have hmap : (List.range (m + 1)).map (fun k => (i + k) * p)
        = i * p :: (List.range m).map (fun k => (i + 1 + k) * p) := by
      rw [List.range_succ_eq_map, List.map_cons, List.map_map]
      simp only [Nat.add_zero]
      refine congrArg (i * p :: ·) (List.map_congr_left fun k _ => ?_)
      simp only [Function.comp_apply, Nat.succ_eq_add_one]
      ring
    have hlist : (trace ++ [i * p]) ++ (List.range m).map (fun k => (i + 1 + k) * p)
        = trace ++ (List.range (m + 1)).map (fun k => (i + k) * p) := by
      rw [hmap, List.append_assoc]
      rfl
    calc wait_aux fetch task_id p mw (fuel + (m + 1)) i (i * p) trace
        = wait_aux fetch task_id p mw (fuel + m) (i + 1) (i * p + p) (trace ++ [i * p]) := hstep
      _ = wait_aux fetch task_id p mw (fuel + m) (i + 1) ((i + 1) * p) (trace ++ [i * p]) := by
          rw [harith]
      _ = wait_aux fetch task_id p mw fuel (i + 1 + m) ((i + 1 + m) * p)
            ((trace ++ [i * p]) ++ (List.range m).map (fun k => (i + 1 + k) * p)) := hIH
      _ = wait_aux fetch task_id p mw fuel (i + (m + 1)) ((i + (m + 1)) * p)
            (trace ++ (List.range (m + 1)).map (fun k => (i + k) * p)) := by
          rw [hidx, hlist]

/-- Arithmetic facts about the iteration count `⌈mw / p⌉ = (mw + p - 1) / p`
of the `wait` loop when no fetch terminates it early. -/
theorem wait_iteration_count_facts (p mw : Nat) (hp : 0 < p) :
    mw ≤ ((mw + p - 1) / p) * p
      ∧ (mw + p - 1) / p ≤ mw
      ∧ ∀ j, j < (mw + p - 1) / p → j * p < mw := by
  have hdm := Nat.div_add_mod (mw + p - 1) p
  have hml : (mw + p - 1) % p < p := Nat.mod_lt _ hp
  have hle : ((mw + p - 1) / p) * p ≤ mw + p - 1 := Nat.div_mul_le_self _ _
  refine ⟨?_, ?_, ?_⟩
  · have hcm : ((mw + p - 1) / p) * p = p * ((mw + p - 1) / p) := Nat.mul_comm _ _
    rw [hcm]
    generalize hq : p * ((mw + p - 1) / p) = t at hdm ⊢
    omega
  · by_contra hq
    push_neg at hq
    have h1 : p * (mw + 1) ≤ p * ((mw + p - 1) / p) := Nat.mul_le_mul_left p (by omega)
    have h2 : mw ≤ p * mw := Nat.le_mul_of_pos_left mw hp
    have h3 : p * (mw + 1) = p * mw + p := by ring
    have hcm : ((mw + p - 1) / p) * p = p * ((mw + p - 1) / p) := Nat.mul_comm _ _
    rw [hcm] at hle
    generalize p * ((mw + p - 1) / p) = t at h1 hle
    omega
  · intro j hj
    rcases Nat.eq_zero_or_pos mw with hmw | hmw
    · subst hmw
      have h0 : (0 + p - 1) / p = 0 := Nat.div_eq_of_lt (by omega)
      omega
    · have h1 : j * p ≤ ((mw + p - 1) / p - 1) * p := Nat.mul_le_mul_right _ (by omega)
      have h2 : ((mw + p - 1) / p - 1) * p = ((mw + p - 1) / p) * p - 1 * p :=
        Nat.sub_mul _ _ _
      rw [Nat.one_mul] at h2
      omega

/-- C1: for every call `wait(task_id, poll_interval=15, max_wait=30)` in
which every fetched Task is neither done nor terminal-failed, `wait`
performs exactly 3 fetches, at elapsed 0, 15 and 30 (elapsed advances by
exactly the poll interval per iteration, never by measured wall-clock
time), returns the Task produced by the third fetch, and does not raise. -/
theorem wait_three_fetches_then_returns_third (fetch : Nat → Task) (task_id : String)
    (h : ∀ k, (fetch k).is_done = false ∧ (fetch k).failed_status = false) :
    wait fetch task_id 15 30 = some (.returned (fetch 2), [0, 15, 30]) := by
  have s0 := wait_aux_step fetch task_id 15 30 30 0 0 [] (by omega) (h 0).1 (h 0).2
  have s1 := wait_aux_step fetch task_id 15 30 29 1 15 [0] (by omega) (h 1).1 (h 1).2
  have s2 := wait_aux_timeout fetch task_id 15 30 28 2 30 [0, 15] (by omega)
  exact s0.trans (s1.trans s2)

/-- Witness for C1: a fetch sequence that always reports status "active"
drives `wait` through 3 fetches and a normal return of the third snapshot. -/
theorem wait_three_fetches_then_returns_third_witness :
    wait (fun _ => sampleTask "active" (.obj [("status", .str "active")])) "t1" 15 30
      = some (.returned (sampleTask "active" (.obj [("status", .str "active")])),
          [0, 15, 30]) :=
  wait_three_fetches_then_returns_third _ "t1" (fun _ => ⟨rfl, rfl⟩)

/-- C2: for every call to `wait` whose in-loop fetch number `i` (with all
earlier fetches neither done nor terminal-failed, and fetch `i` still
inside the loop, i.e. `i * poll_interval < max_wait`) returns a Task with
status in expired/cancelled/disputed, `wait` raises a `TaskExpiredError`
carrying the full raw payload of that fetched task, after exactly `i + 1`
fetches. -/
theorem wait_raises_task_expired_with_payload (fetch : Nat → Task) (task_id : String)
    (p mw i : Nat) (hp : 0 < p)
    (hpend : ∀ j, j < i → (fetch j).is_done = false ∧ (fetch j).failed_status = false)
    (hin : i * p < mw)
    (hfail : (fetch i).failed_status = true) :
    wait fetch task_id p mw
      = some (.raised (.taskExpired
          ("Task " ++ task_id ++ " ended with status: " ++ (fetch i).status.pystr)
          none (fetch i).raw),
          (List.range (i + 1)).map (fun k => k * p)) := by
  have hile : i ≤ mw := by
    have := Nat.le_mul_of_pos_right i hp
    omega
  obtain ⟨f, hf⟩ : ∃ f, mw + 1 - i = f + 1 := ⟨mw - i, by omega⟩
  have hrun := wait_aux_run_pending fetch task_id p mw i (f + 1) 0 []
    (fun j _ hj => hpend j (by omega))
    (fun j _ hj => by
      have : j * p ≤ i * p := Nat.mul_le_mul_right _ (by omega)
      omega)
  simp only [Nat.zero_mul, Nat.zero_add, List.nil_append] at hrun
  have hraise := wait_aux_raise fetch task_id p mw f i (i * p)
    ((List.range i).map (fun k => k * p)) hin hfail
  calc wait fetch task_id p mw
      = wait_aux fetch task_id p mw ((f + 1) + i) 0 0 [] := by
        show wait_aux fetch task_id p mw (mw + 1) 0 0 [] = _
        rw [show mw + 1 = (f + 1) + i from by omega]
    _ = wait_aux fetch task_id p mw (f + 1) i (i * p)
          ((List.range i).map (fun k => k * p)) := hrun
    _ = some (.raised (.taskExpired
          ("Task " ++ task_id ++ " ended with status: " ++ (fetch i).status.pystr)
          none (fetch i).raw),
          (List.range i).map (fun k => k * p) ++ [i * p]) := hraise
    _ = some (.raised (.taskExpired
          ("Task " ++ task_id ++ " ended with status: " ++ (fetch i).status.pystr)
          none (fetch i).raw),
          (List.range (i + 1)).map (fun k => k * p)) := by
        rw [List.range_succ, List.map_append]
        rfl

/-- Witness for C2: the scripted fetch sequence [active, expired] (with the
default poll interval 15 and max wait 900) makes `wait` raise after exactly
2 fetches, with the raised payload equal to the second response. -/
theorem wait_raises_task_expired_with_payload_witness :
    wait (fun n => if n = 0 then sampleTask "active" (.obj [("status", .str "active")])
                   else sampleTask "expired" (.obj [("status", .str "expired")])) "t1" 15 900
      = some (.raised (.taskExpired "Task t1 ended with status: expired" none
          (.obj [("status", .str "expired")])), [0, 15]) := by
  have h := wait_raises_task_expired_with_payload
    (fun n => if n = 0 then sampleTask "active" (.obj [("status", .str "active")])
              else sampleTask "expired" (.obj [("status", .str "expired")])) "t1" 15 900 1
    (by omega)
    (fun j hj => by
      have hj0 : j = 0 := by omega
      subst hj0
      exact ⟨rfl, rfl⟩)
    (by omega)
    rfl
  exact h.trans rfl

/-- C10: when every in-loop fetch (those at index `j` with
`j * poll_interval < max_wait`) is neither done nor terminal-failed, the
loop exits by timeout, performs one final fetch — index
`(max_wait + poll_interval - 1) / poll_interval` — and returns it
unconditionally: no hypothesis constrains that final fetch's status, so a
terminal-failure status there is returned, not raised; the terminal-failure
check applies only to in-loop fetches. -/
theorem wait_timeout_returns_final_fetch (fetch : Nat → Task) (task_id : String)
    (p mw : Nat) (hp : 0 < p)
    (hpend : ∀ j, j * p < mw → (fetch j).is_done = false ∧ (fetch j).failed_status = false) :
    wait fetch task_id p mw
      = some (.returned (fetch ((mw + p - 1) / p)),
          (List.range ((mw + p - 1) / p + 1)).map (fun k => k * p)) := by
  obtain ⟨hceil, hlemw, hjlt⟩ := wait_iteration_count_facts p mw hp
  set N := (mw + p - 1) / p with hN
  obtain ⟨f, hf⟩ : ∃ f, mw + 1 - N = f + 1 := ⟨mw - N, by omega⟩
  have hrun := wait_aux_run_pending fetch task_id p mw N (f + 1) 0 []
    (fun j _ hj => hpend j (hjlt j (by omega)))
    (fun j _ hj => hjlt j (by omega))
  simp only [Nat.zero_mul, Nat.zero_add, List.nil_append] at hrun
  have htimeout := wait_aux_timeout fetch task_id p mw f N (N * p)
    ((List.range N).map (fun k => k * p)) hceil
  calc wait fetch task_id p mw
      = wait_aux fetch task_id p mw ((f + 1) + N) 0 0 [] := by
        show wait_aux fetch task_id p mw (mw + 1) 0 0 [] = _
        rw [show mw + 1 = (f + 1) + N from by omega]
    _ = wait_aux fetch task_id p mw (f + 1) N (N * p)
          ((List.range N).map (fun k => k * p)) := hrun
    _ = some (.returned (fetch N), (List.range N).map (fun k => k * p) ++ [N * p]) :=
        htimeout
    _ = some (.returned (fetch N), (List.range (N + 1)).map (fun k => k * p)) := by
        rw [List.range_succ, List.map_append]
        rfl

/-- Witness for C10: with poll interval 15 and max wait 15, a pending first
fetch followed by an expired final fetch is returned (not raised), even
though the final snapshot has a terminal-failure status. -/
theorem wait_timeout_returns_final_fetch_witness :
    wait (fun n => if n = 0 then sampleTask "active" (.obj [("status", .str "active")])
                   else sampleTask "expired" (.obj [("status", .str "expired")])) "t1" 15 15
      = some (.returned (sampleTask "expired" (.obj [("status", .str "expired")])),
          [0, 15]) := by
  have h := wait_timeout_returns_final_fetch
    (fun n => if n = 0 then sampleTask "active" (.obj [("status", .str "active")])
              else sampleTask "expired" (.obj [("status", .str "expired")])) "t1" 15 15
    (by omega)
    (fun j hj => by
      have hj0 : j = 0 := by omega
      subst hj0
      exact ⟨rfl, rfl⟩)
  exact h.trans rfl

/-- C3 counterexample: the standalone `ask_human` function has no except
clause, so when the underlying `ask` call raises a core failure the failure
propagates to the caller instead of being converted to a plain text
message. -/
theorem ask_human_propagates_failure :
    (ask_human (.error (.loopumanError "API error 500: boom" (some 500) (.obj [])))).isOk
      = false := rfl

/-- C3 amended: the LangChain tool callable, the CrewAI tool callable and
the AutoGen function-map entry catch every core failure raised by the
underlying `ask` call and return a plain text failure message (the caller
always receives a string); the standalone `ask_human` function passes the
outcome of `ask` through unchanged, propagating raised failures. -/
theorem framework_adapters_catch_core_failures (r : Except LoopumanExc String) :
    (langchain_loopuman_human_task r).isOk = true
      ∧ (crewai_loopuman_human_task r).isOk = true
      ∧ (ask_human_worker r).isOk = true
      ∧ ask_human r = r := by
  refine ⟨?_, ?_, ?_, rfl⟩ <;> cases r <;> rfl

/-- The result-extraction step of `Task.from_dict` cannot fail on a
well-shaped submissions value. -/
theorem extract_result_ok_of_well_shaped (s : Json)
    (h : submissions_well_shaped s = true) : (extract_result s).isOk = true := by
  cases s with
  | null => rfl
  | bool b => cases b with
    | false => rfl
    | true => simp [submissions_well_shaped, Json.truthy] at h
  | num n =>
      have hn : n = 0 := by
        simpa [submissions_well_shaped, Json.truthy] using h
      subst hn
      rfl
  | str s' =>
      have hs : s' = "" := by
        simpa [submissions_well_shaped, Json.truthy] using h
      subst hs
      rfl
  | arr elems =>
      cases elems with
      | nil => rfl
      | cons first rest =>
          cases first <;> first | rfl | simp [submissions_well_shaped] at h
  | obj fields =>
      have hf : fields.isEmpty = true := by
        simpa [submissions_well_shaped, Json.truthy] using h
      rw [List.isEmpty_iff] at hf
      subst hf
      rfl

/-- C4 counterexample: `Task.from_dict` does have a failure mode — on the
server response `{"submissions": [5]}` the Python code raises
(`submissions[0].get` on an integer), so normalization does not return a
Task. -/
theorem from_dict_raises_on_malformed_submissions :
    (Task.from_dict (.obj [("submissions", .arr [.num 5])])).isOk = false := rfl

/-- C4 amended: for every server response that is a JSON object whose
submissions value (empty, absent, falsy, or an array whose first element
is an object) is well-shaped, `Task.from_dict` returns a Task without
raising, degrading to unset/default fields; for other submissions shapes
(or a non-object response) it can raise. -/
theorem from_dict_total_on_well_shaped_submissions (fields : List (String × Json))
    (h : submissions_well_shaped (jget fields "submissions" (.arr [])) = true) :
    (Task.from_dict (.obj fields)).isOk = true := by
  have hex := extract_result_ok_of_well_shaped _ h
  unfold Task.from_dict
  cases hres : extract_result (jget fields "submissions" (.arr [])) with
  | error e => rw [hres] at hex; cases hex
  | ok r => simp only [hres]; rfl

/-- Witness for C4 (amended): a typical task response normalizes without
raising. -/
theorem from_dict_total_on_well_shaped_submissions_witness :
    (Task.from_dict (.obj [("task_id", .str "t1"), ("status", .str "active"),
        ("submissions", .arr [.obj [("content", .str "ok")]])])).isOk = true :=
  from_dict_total_on_well_shaped_submissions _ rfl

/-- C5 counterexample: a Task whose budget field is set to the integer 0
has an unset `budget_usd` (Python's `if self.budget` treats 0 as falsy),
not 0 / 100 as the claim requires for every integer budget. -/
theorem budget_usd_zero_budget_counterexample :
    ({ sampleTask "active" (.obj []) with budget := .num 0 } : Task).budget_usd
      ≠ .ok (some ((0 : ℚ) / 100)) := by
  intro hcontra
  simp [Task.budget_usd, sampleTask, Json.truthy] at hcontra

/-- C5 amended: for every Task whose budget is set to a nonzero integer
`n`, `budget_usd` is `n / 100`; for a Task whose budget is unset (None) or
zero, `budget_usd` is unset. -/
theorem budget_usd_characterization (t : Task) (n : Int) :
    (t.budget = .num n → n ≠ 0 → t.budget_usd = .ok (some ((n : ℚ) / 100)))
      ∧ (t.budget = .null → t.budget_usd = .ok none)
      ∧ (t.budget = .num 0 → t.budget_usd = .ok none) := by
  refine ⟨fun h hn => ?_, fun h => ?_, fun h => ?_⟩
  · simp [Task.budget_usd, h, Json.truthy, hn]
  · simp [Task.budget_usd, h, Json.truthy]
  · simp [Task.budget_usd, h, Json.truthy]

/-- Witness for C5 (amended): budget 250 yields exactly 2.50 dollars. -/
theorem budget_usd_characterization_witness :
    ({ sampleTask "active" (.obj []) with budget := .num 250 } : Task).budget_usd
      = .ok (some ((5 : ℚ) / 2)) := by
  have h := (budget_usd_characterization
    ({ sampleTask "active" (.obj []) with budget := .num 250 }) 250).1 rfl (by norm_num)
  rw [h]
  norm_num

/-- C6: for every budget value `b` passed to task creation — both the plain
create and the blocking create — the `budget_vae` entry transmitted in the
request payload equals 10 when `b < 10` and `b` when `b ≥ 10`. -/
theorem create_budget_floor_clamp (description : String) (title : Option String)
    (category : String) (b estimated_seconds : Int) (priority : String) (max_workers : Int) :
    payload_field
        (create_task_payload description title category b estimated_seconds priority max_workers)
        "budget_vae"
        = some (.num (if b < 10 then 10 else b))
      ∧ payload_field
          (create_task_sync_payload description title category b estimated_seconds priority)
          "budget_vae"
          = some (.num (if b < 10 then 10 else b)) := by
  have hmax : max b 10 = if b < 10 then 10 else b := by
    split <;> omega
  constructor <;>
  · cases title with
    | none =>
        show some (Json.num (max b 10)) = some (.num (if b < 10 then 10 else b))
        rw [hmax]
    | some t =>
        cases ht : (t != "") <;>
          simp only [create_task_payload, create_task_sync_payload, payload_field, ht,
            Bool.false_eq_true, if_false, if_true] <;>
        · show some (Json.num (max b 10)) = some (.num (if b < 10 then 10 else b))
          rw [hmax]

/-- Witness for C6: budget 3 is clamped up to 10; budget 50 passes through. -/
theorem create_budget_floor_clamp_witness :
    payload_field (create_task_payload "d" none "other" 3 120 "normal" 1) "budget_vae"
        = some (.num 10)
      ∧ payload_field (create_task_sync_payload "d" none "other" 50 120 "high") "budget_vae"
        = some (.num 50) := by
  have h3 := create_budget_floor_clamp "d" none "other" 3 120 "normal" 1
  have h50 := create_budget_floor_clamp "d" none "other" 50 120 "high" 1
  exact ⟨h3.1.trans (by norm_num), h50.2.trans (by norm_num)⟩

/-- C7: for every server response whose submissions value is a non-empty
array with an object first element, the normalized result equals that first
submission's "content" field when present, else its "text" field, else
unset; for an empty or absent submissions value, the result is unset. -/
theorem from_dict_result_extraction (fields sub0 : List (String × Json)) (rest : List Json) :
    (jget fields "submissions" (.arr []) = .arr (.obj sub0 :: rest) →
      (Task.from_dict (.obj fields)).map Task.result
        = .ok (match sub0.lookup "content" with
               | some v => v
               | none => match sub0.lookup "text" with
                         | some v => v
                         | none => .null))
      ∧ (jget fields "submissions" (.arr []) = .arr [] →
        (Task.from_dict (.obj fields)).map Task.result = .ok .null) := by
  constructor <;> intro h <;> unfold Task.from_dict <;> simp only [h]
  · have hres : extract_result (.arr (.obj sub0 :: rest))
        = .ok (jget sub0 "content" (jget sub0 "text" .null)) := rfl
    simp only [hres, Except.map]
    cases hc : sub0.lookup "content" <;> cases htx : sub0.lookup "text" <;>
      simp [jget, hc, htx]
  · simp [extract_result, Except.map]

/-- Witness for C7: a submission with only a "text" field falls back to it. -/
theorem from_dict_result_extraction_witness :
    (Task.from_dict (.obj [("submissions", .arr [.obj [("text", .str "hello")]])])).map
        Task.result
      = .ok (.str "hello") := by
  have h := (from_dict_result_extraction [("submissions", .arr [.obj [("text", .str "hello")]])]
    [("text", .str "hello")] []).1 rfl
  exact h.trans rfl

/-- C8: for every Task — whatever its status value, recognized or not —
`is_done` holds iff the status is "completed" or "approved", `is_pending`
holds iff it is "active", "claimed" or "submitted", and the
terminal-failure statuses (expired/cancelled/disputed) satisfy neither
predicate. -/
theorem status_predicates_characterization (t : Task) :
    (t.is_done = true ↔ (t.status = .str "completed" ∨ t.status = .str "approved"))
      ∧ (t.is_pending = true ↔
          (t.status = .str "active" ∨ t.status = .str "claimed" ∨ t.status = .str "submitted"))
      ∧ (t.failed_status = true → t.is_done = false ∧ t.is_pending = false) := by
  refine ⟨?_, ?_, fun h => ?_⟩
  · simp [Task.is_done, Bool.or_eq_true, Json.eqStr_iff]
  · simp [Task.is_pending, Bool.or_eq_true, Json.eqStr_iff, or_assoc]
  · rcases (Task.failed_status_spec t).1 h with h' | h' | h' <;>
      exact ⟨by simp [Task.is_done, h', Json.eqStr],
             by simp [Task.is_pending, h', Json.eqStr]⟩

/-- Witness for C8: an expired task is neither done nor pending. -/
theorem status_predicates_characterization_witness :
    (sampleTask "expired" (.obj [])).is_done = false
      ∧ (sampleTask "expired" (.obj [])).is_pending = false :=
  (status_predicates_characterization (sampleTask "expired" (.obj []))).2.2 rfl

/-- A string containing "insufficient_balance" also contains "balance", so
the first disjunct of the transport's balance test is subsumed by the
second. -/
theorem pyContains_balance_of_insufficient (m : String)
    (h : pyContains m "insufficient_balance" = true) : pyContains m "balance" = true := by
  have h1 : ("insufficient_balance".data : List Char) <:+: m.data := of_decide_eq_true h
  have h2 : ("balance".data : List Char) <:+: "insufficient_balance".data := by decide
  exact decide_eq_true (h2.trans h1)

/-- C9 counterexample: the claim quantifies over every HTTP response with
status ≥ 400, but a body that parses successfully to a non-dict JSON value
— here the bare JSON string "oops" with a 404 status — makes
`data.get("error", ...)` at client.py line 166 raise `AttributeError`, so
the transport raises neither the Insufficient-Balance failure kind nor the
generic API failure kind.  (The JSON-decode fallback at lines 160–163 only
fires when `resp.json()` raises; it does not force the parsed body to be a
dict.) -/
theorem request_outcome_non_object_body_counterexample :
    request_outcome 404 (.str "oops") "\x22oops\x22"
      = .pyError "AttributeError: error body has no attribute get" := rfl

/-- C9 amended: for every HTTP response with status ≥ 400 whose parsed body
is a JSON object (in particular every body the JSON-decode fallback wraps
as an object), the transport raises the Insufficient-Balance failure when
the extracted error message text contains "balance" case-insensitively,
and the generic API failure otherwise; both raised failures carry the HTTP
status code and the parsed response body.  For a body that parses to a
non-object JSON value the code instead raises `AttributeError` (see the
counterexample above). -/
theorem request_error_classification (status_code : Int)
    (fields : List (String × Json)) (raw_text : String) (h400 : 400 ≤ status_code) :
    (pyContains (pyLower (jget fields "error" (jget fields "message" (.str raw_text))).pystr)
          "balance" = true →
      request_outcome status_code (.obj fields) raw_text
        = .raised (.insufficientBalance
            ("Balance too low. Top up at loopuman.com or deposit crypto. Error: "
              ++ (jget fields "error" (jget fields "message" (.str raw_text))).pystr)
            (some status_code) (.obj fields)))
      ∧ (pyContains (pyLower (jget fields "error" (jget fields "message" (.str raw_text))).pystr)
            "balance" = false →
        request_outcome status_code (.obj fields) raw_text
          = .raised (.loopumanError
              ("API error " ++ toString status_code ++ ": "
                ++ (jget fields "error" (jget fields "message" (.str raw_text))).pystr)
              (some status_code) (.obj fields))) := by
  constructor <;> intro hb <;> unfold request_outcome <;> rw [if_pos h400]
  · simp [hb]
  · have hins : pyContains
        (pyLower (jget fields "error" (jget fields "message" (.str raw_text))).pystr)
        "insufficient_balance" = false := by
      cases hcase : pyContains
          (pyLower (jget fields "error" (jget fields "message" (.str raw_text))).pystr)
          "insufficient_balance"
      · rfl
      · exact absurd (pyContains_balance_of_insufficient _ hcase) (by simp [hb])
    simp [hins, hb]

/-- Witness for C9: a 402 whose message contains "insufficient_balance"
maps to the Insufficient-Balance failure; a 404 with an unrelated message
maps to the generic failure. -/
theorem request_error_classification_witness :
    request_outcome 402 (.obj [("error", .str "insufficient_balance: top up")]) ""
        = .raised (.insufficientBalance
            "Balance too low. Top up at loopuman.com or deposit crypto. Error: insufficient_balance: top up"
            (some 402) (.obj [("error", .str "insufficient_balance: top up")]))
      ∧ request_outcome 404 (.obj [("error", .str "not found")]) ""
        = .raised (.loopumanError "API error 404: not found" (some 404)
            (.obj [("error", .str "not found")])) := by
  constructor
  · have h := (request_error_classification 402
      [("error", .str "insufficient_balance: top up")] "" (by norm_num)).1 rfl
    exact h.trans rfl
  · have h := (request_error_classification 404
      [("error", .str "not found")] "" (by norm_num)).2 rfl
    exact h.trans rfl

end Loopuman
